import Mathlib

/-!
Verification of the admin control plane for the document-summarization
backend: the dual-store reconciliation / garbage-collection engine, its
scheduler, the HTTP facade (`adminApi.ts`), the deletion-log format used
by the logs page, and the auth routes (`login`/`signup`).

The frontend TypeScript under `src/` is embedded directly.  The backend
reconciliation engine (FastAPI service) is not part of the source tree —
only its documentation, callers and scripts are — so engine operations
are modelled from the spec, as marked on each definition.
-/

namespace AdminEngine

/-- The `reason` tag of a deletion-log entry: closed set {manual, cleanup, reset}. -/
inductive Reason where
  | manual
  | cleanup
  | reset
deriving DecidableEq, Repr

/-- Which store a deletion touched. -/
inductive StoreTag where
  | vector
  | cache
deriving DecidableEq, Repr

/-- A vector record: `DocumentID` plus its creation timestamp (seconds). -/
structure VectorRec where
  id : String
  createdAt : Nat
deriving DecidableEq, Repr

/-- A cache record: `DocumentID` plus its TTL expiry instant (seconds). -/
structure CacheRec where
  id : String
  expiresAt : Nat
deriving DecidableEq, Repr

/-- An audit-log entry as the spec describes `DeletionLogEntry`. -/
structure AuditEntry where
  docId : String
  date : Nat
  store : StoreTag
  reason : Reason
deriving DecidableEq, Repr

/-- Modelled from the spec: the engine-visible state — the vector store,
the cache store, the append-only audit log, and the single maintenance
lock ("the single shared mutable resource"). -/
structure EngineState where
  vectors : List VectorRec
  cache : List CacheRec
  audit : List AuditEntry
  lockHeld : Bool
deriving DecidableEq, Repr

/-- The error taxonomy relevant to maintenance operations: `Busy` when the
maintenance lock is held. -/
inductive EngineError where
  | busy
deriving DecidableEq, Repr

/-- The `CleanupResult` value object: `{deletedCount, deletedIDs, errorCount, errors}`. -/
structure CleanupResult where
  deletedCount : Nat
  deletedIDs : List String
  errorCount : Nat
  errors : List String
deriving DecidableEq, Repr

/-- Embeds `VectorStore.ListAllKeys()`. -/
def listAllKeys (s : EngineState) : List String :=
  s.vectors.map VectorRec.id

/-- Embeds `CacheStore.ListLiveKeys()`: keys whose TTL has not yet expired at `now`. -/
def listLiveKeys (now : Nat) (s : EngineState) : List String :=
  (s.cache.filter (fun c => decide (now < c.expiresAt))).map CacheRec.id

/-- Modelled from the spec: a vector record is an orphan when its key is
absent from the cache's live-key set and its creation timestamp is beyond
the grace window (a vector created within the window is excluded). -/
def isOrphan (live : List String) (grace now : Nat) (v : VectorRec) : Bool :=
  !(live.contains v.id) && decide (v.createdAt + grace < now)

/-- Embeds `AuditLog.QueryByDate(date)`. -/
def queryByDate (d : Nat) (log : List AuditEntry) : List AuditEntry :=
  log.filter (fun e => decide (e.date = d))

/-- The audit entry written for one vector orphan removed by cleanup. -/
def cleanupEntry (today : Nat) (id : String) : AuditEntry :=
  ⟨id, today, StoreTag.vector, Reason.cleanup⟩

/-- Modelled from the spec: the body of `CleanupOrphanedVectors` once the
maintenance lock is acquired — compute the orphan set
`ListAllKeys() − ListLiveKeys()` minus grace-window vectors, delete each
orphan from the vector store, append one
`DeletionLogEntry{store: vector, reason: cleanup}` per deleted key, and
build the `CleanupResult`. -/
def runCleanup (grace now today : Nat) (s : EngineState) :
    CleanupResult × EngineState :=
  let live := listLiveKeys now s
  let orphans := s.vectors.filter (isOrphan live grace now)
  let ids := orphans.map VectorRec.id
  (⟨ids.length, ids, 0, []⟩,
   { s with
     vectors := s.vectors.filter (fun v => !isOrphan live grace now v),
     audit := s.audit ++ ids.map (cleanupEntry today) })

/-- Modelled from the spec: `CleanupOrphanedVectors` — fails fast with
`Busy` when the maintenance lock is held, otherwise holds the lock for the
run's duration and releases it when the result is returned. -/
def cleanupOrphanedVectors (grace now today : Nat) (s : EngineState) :
    Except EngineError (CleanupResult × EngineState) :=
  if s.lockHeld then Except.error EngineError.busy
  else Except.ok (runCleanup grace now today s)

/-- Modelled from the spec: the state an observer sees while a maintenance
run holds the global lock. -/
def midRun (s : EngineState) : EngineState :=
  { s with lockHeld := true }

/-- Modelled from the spec: `CleanupExpiredCache` — gated by the same
maintenance lock; evicts cache entries past TTL, logs one
`DeletionLogEntry{store: cache, reason: cleanup}` per evicted key and
returns a `CleanupResult`. -/
def cleanupExpiredCache (now today : Nat) (s : EngineState) :
    Except EngineError (CleanupResult × EngineState) :=
  if s.lockHeld then Except.error EngineError.busy
  else
    let expired := s.cache.filter (fun c => decide (c.expiresAt ≤ now))
    let ids := expired.map CacheRec.id
    Except.ok
      (⟨ids.length, ids, 0, []⟩,
       { s with
         cache := s.cache.filter (fun c => !decide (c.expiresAt ≤ now)),
         audit := s.audit ++ ids.map (fun i => ⟨i, today, StoreTag.cache, Reason.cleanup⟩) })

/-- The `ResetAll` result: counts cleared from each store plus accumulated errors. -/
structure ResetResult where
  vectorsDeleted : Nat
  cacheDeleted : Nat
  errors : List String
deriving DecidableEq, Repr

/-- The single summary audit entry a reset writes (the spec leaves the
summary entry's store tag unspecified; one entry, `reason: reset`). -/
def resetSummaryEntry (today : Nat) : AuditEntry :=
  ⟨"*", today, StoreTag.vector, Reason.reset⟩

/-- Modelled from the spec: `ResetAll` — gated by the same maintenance
lock; attempts the vector clear and then the cache clear even when the
first fails (`vfail`/`cfail` are the stores' I/O failures, `none` =
success); reports counts and errors from both stores and writes a single
summary entry `reason: reset`. -/
def resetAll (vfail cfail : Option String) (today : Nat) (s : EngineState) :
    Except EngineError (ResetResult × EngineState) :=
  if s.lockHeld then Except.error EngineError.busy
  else
    let vd := match vfail with
      | none => s.vectors.length
      | some _ => 0
    let cd := match cfail with
      | none => s.cache.length
      | some _ => 0
    Except.ok
      (⟨vd, cd, vfail.toList ++ cfail.toList⟩,
       { vectors := if vfail.isNone then [] else s.vectors,
         cache := if cfail.isNone then [] else s.cache,
         audit := s.audit ++ [resetSummaryEntry today],
         lockHeld := s.lockHeld })

/-- The audit entry written for a manual single-item delete. -/
def manualEntry (today : Nat) (st : StoreTag) (id : String) : AuditEntry :=
  ⟨id, today, st, Reason.manual⟩

/-- Modelled from the spec: `DeleteOne(store, id)` — deletes a single
record from the named store and writes `DeletionLogEntry{reason: manual}`;
when the key is absent it returns `existed = false`, writes nothing and
does not error (it is not gated by the maintenance lock). -/
def deleteOne (st : StoreTag) (today : Nat) (id : String) (s : EngineState) :
    Bool × EngineState :=
  match st with
  | StoreTag.vector =>
    if s.vectors.any (fun v => v.id == id) then
      (true,
       { s with
         vectors := s.vectors.filter (fun v => !(v.id == id)),
         audit := s.audit ++ [manualEntry today StoreTag.vector id] })
    else (false, s)
  | StoreTag.cache =>
    if s.cache.any (fun c => c.id == id) then
      (true,
       { s with
         cache := s.cache.filter (fun c => !(c.id == id)),
         audit := s.audit ++ [manualEntry today StoreTag.cache id] })
    else (false, s)

/-- Modelled from the spec: scheduler bookkeeping — the instants at which
the timer fired and attempted a cleanup, the log of skipped ticks, and a
queue of deferred runs (which the scheduler never uses: a busy tick is
skipped, not queued). -/
structure SchedState where
  attempts : List Nat
  skippedDays : List Nat
  pending : List Nat
deriving DecidableEq, Repr

/-- Modelled from the spec: the fixed wall-clock fire instant of day `day`
for a scheduler configured to fire at hour `hour` (default 3, i.e. 03:00). -/
def fireTime (hour day : Nat) : Nat :=
  day * 86400 + hour * 3600

/-- Modelled from the spec: one scheduler tick on day `day` — attempt
`CleanupOrphanedVectors` at the fixed fire instant; on `Busy` the tick is
skipped and logged, never queued and never retried before the next day's
tick. -/
def schedulerTick (grace hour day : Nat) (es : EngineState) (ss : SchedState) :
    EngineState × SchedState :=
  let now := fireTime hour day
  let ss' := { ss with attempts := ss.attempts ++ [now] }
  match cleanupOrphanedVectors grace now day es with
  | Except.error EngineError.busy =>
    (es, { ss' with skippedDays := ss'.skippedDays ++ [day] })
  | Except.ok (_, es') => (es', ss')

/-- Modelled from the spec: the scheduler loop over successive days, one
tick per day. -/
def runSchedule (grace hour : Nat) (days : List Nat)
    (es : EngineState) (ss : SchedState) : EngineState × SchedState :=
  match days with
  | [] => (es, ss)
  | d :: rest =>
    let (es', ss') := schedulerTick grace hour d es ss
    runSchedule grace hour rest es' ss'

end AdminEngine

namespace AdminApi

/-!  Embedding of `src/src/services/adminApi.ts` (the AdminFacade).  Each
exported function builds one request against the admin API base URL,
performs a single `fetch`, throws its fixed error message when the
response is not ok, and otherwise returns the parsed response body
unchanged.  The network is abstracted as a function from requests to
responses. -/

/-- Constant `ADMIN_API_BASE` — default when `NEXT_PUBLIC_ADMIN_API_URL` is unset. -/
def ADMIN_API_BASE : String := "http://172.16.10.117:8001"

/-- An HTTP request as the facade issues it: URL and method. -/
structure Request where
  url : String
  method : String
deriving DecidableEq, Repr

/-- An HTTP response: `ok` status and the JSON body (opaque here). -/
structure Response where
  ok : Bool
  body : String
deriving DecidableEq, Repr

/-- A facade call returns the list of requests it issued together with
either the response body (success) or the thrown error message. -/
def facadeResult := List Request × Except String String

/-- The request `cleanupUnusedVectors` issues. -/
def cleanupUnusedVectorsReq : Request :=
  ⟨ADMIN_API_BASE ++ "/vector/cleanup-unused", "DELETE"⟩

/-- Function `cleanupUnusedVectors()` from `adminApi.ts`. -/
def cleanupUnusedVectors (respond : Request → Response) :
    List Request × Except String String :=
  let res := respond cleanupUnusedVectorsReq
  ([cleanupUnusedVectorsReq],
   if res.ok then Except.ok res.body else Except.error "미사용 벡터 정리 실패")

/-- The request `deleteVectorById` issues for `file_id`. -/
def deleteVectorByIdReq (file_id : String) : Request :=
  ⟨ADMIN_API_BASE ++ "/vector/delete/" ++ file_id, "DELETE"⟩

/-- Function `deleteVectorById(file_id)` from `adminApi.ts`. -/
def deleteVectorById (file_id : String) (respond : Request → Response) :
    List Request × Except String String :=
  let res := respond (deleteVectorByIdReq file_id)
  ([deleteVectorByIdReq file_id],
   if res.ok then Except.ok res.body else Except.error "벡터 삭제 실패")

/-- The request `deleteCacheById` issues for `file_id`. -/
def deleteCacheByIdReq (file_id : String) : Request :=
  ⟨ADMIN_API_BASE ++ "/cache/summary/" ++ file_id, "DELETE"⟩

/-- Function `deleteCacheById(file_id)` from `adminApi.ts` (the facade of
`DeleteOne` on the cache store). -/
def deleteCacheById (file_id : String) (respond : Request → Response) :
    List Request × Except String String :=
  let res := respond (deleteCacheByIdReq file_id)
  ([deleteCacheByIdReq file_id],
   if res.ok then Except.ok res.body else Except.error "캐시 삭제 실패")

/-- The request `cleanupUnusedCache` issues. -/
def cleanupUnusedCacheReq : Request :=
  ⟨ADMIN_API_BASE ++ "/cache/cleanup", "DELETE"⟩

/-- Function `cleanupUnusedCache()` from `adminApi.ts` (the facade of
`CleanupExpiredCache`). -/
def cleanupUnusedCache (respond : Request → Response) :
    List Request × Except String String :=
  let res := respond cleanupUnusedCacheReq
  ([cleanupUnusedCacheReq],
   if res.ok then Except.ok res.body else Except.error "미사용 캐시 정리 실패")

/-- The request `deleteAllVectors` issues. -/
def deleteAllVectorsReq : Request :=
  ⟨ADMIN_API_BASE ++ "/vector/all", "DELETE"⟩

/-- Function `deleteAllVectors()` from `adminApi.ts`. -/
def deleteAllVectors (respond : Request → Response) :
    List Request × Except String String :=
  let res := respond deleteAllVectorsReq
  ([deleteAllVectorsReq],
   if res.ok then Except.ok res.body else Except.error "벡터 전체 삭제 실패")

/-- The request `deleteSystemAll` issues. -/
def deleteSystemAllReq : Request :=
  ⟨ADMIN_API_BASE ++ "/system/all", "DELETE"⟩

/-- Function `deleteSystemAll()` from `adminApi.ts`. -/
def deleteSystemAll (respond : Request → Response) :
    List Request × Except String String :=
  let res := respond deleteSystemAllReq
  ([deleteSystemAllReq],
   if res.ok then Except.ok res.body else Except.error "시스템 전체 삭제 실패")

end AdminApi

namespace AuthRoutes

/-!  Embedding of the Next.js auth API routes:
`src/ucware-admin-website/src/app/api/auth/login/route.ts` (login) and
the signup route from the transferred sources (`src/unnamed/part_000`,
`src/unnamed/part_009`).  `bcrypt.compare` / `bcrypt.hash` are abstracted
as parameters since bcrypt is salted and external. -/

/-- A stored user from `admin-users.json`: email and bcrypt password hash
(the stored field is named `password`). -/
structure StoredUser where
  email : String
  password : String
deriving DecidableEq, Repr

/-- The JSON body of an auth response: `{success: true}` or `{error: msg}`. -/
inductive ApiBody where
  | success
  | errorMsg (msg : String)
deriving DecidableEq, Repr

/-- The shared 401 body both login failure paths return. -/
def loginFailBody : ApiBody :=
  ApiBody.errorMsg "이메일 또는 비밀번호가 올바르지 않습니다."

/-- Route `POST /api/auth/login`: find the first stored user with the given
email; 401 when none; compare the trimmed password against the stored
hash; 401 on mismatch; 200 `{success: true}` on match. -/
def loginPOST (compare : String → String → Bool) (users : List StoredUser)
    (email password : String) : Nat × ApiBody :=
  match users.find? (fun u => u.email == email) with
  | none => (401, ApiBody.errorMsg "이메일 또는 비밀번호가 올바르지 않습니다.")
  | some user =>
    if compare password.trim user.password then (200, ApiBody.success)
    else (401, ApiBody.errorMsg "이메일 또는 비밀번호가 올바르지 않습니다.")

/-- Route `POST /api/auth/signup`: 400 when email or password is falsy (empty),
409 when a stored user already has the email, otherwise append
`{email, password: bcrypt.hash(password.trim(), 10)}` to the user list and
return `{success: true}` (status 200).  Returns status, body and the user
list as written back. -/
def signupPOST (hash : String → String) (users : List StoredUser)
    (email password : String) : Nat × ApiBody × List StoredUser :=
  if email == "" || password == "" then
    (400, ApiBody.errorMsg "필수 정보가 없습니다.", users)
  else if (users.find? (fun u => u.email == email)).isSome then
    (409, ApiBody.errorMsg "이미 존재하는 이메일입니다.", users)
  else
    (200, ApiBody.success, users ++ [⟨email, hash password.trim⟩])

end AuthRoutes

namespace DeletionLogFormat

/-!  Embedding of the deletion-log record format as the repository's code
fixes it: the logs page (`src/ucware-admin-website/src/app/admin/logs/page.tsx`)
declares `type DeletionLog = string` and parses each entry with
`const [fid, ts] = entry.split('|')`; the handover document
(`src/unnamed/part_010`) partitions the logs by store and date under the
Redis keys `vector_deletion_log:{date}` / `cache_deletion_log:{date}`.
Records are modelled as character lists so that `split('|')` can be
reasoned about. -/

/-- JavaScript `String.prototype.split(sep)` on a character sequence:
`"".split(sep) = [""]`, and separators delimit (possibly empty) fields. -/
def jsSplit (sep : Char) : List Char → List (List Char)
  | [] => [[]]
  | c :: rest =>
    if c = sep then [] :: jsSplit sep rest
    else
      match jsSplit sep rest with
      | [] => [[c]]
      | w :: ws => (c :: w) :: ws

/-- Parse `const [fid, ts] = entry.split('|')` from the logs page: the first
field is the `DocumentID`, the second (when present) the deletion
timestamp; JS destructuring yields `undefined` (here `none`) past the end. -/
def parseDeletionLog (entry : List Char) : List Char × Option (List Char) :=
  match jsSplit '|' entry with
  | [] => ([], none)
  | [fid] => (fid, none)
  | fid :: ts :: _ => (fid, some ts)

/-- A deletion-log record as the backend writes it and the page reads it:
`{DocumentID}|{timestamp}`. -/
def mkDeletionLog (fid ts : List Char) : List Char :=
  fid ++ '|' :: ts

/-- The reason tags of the spec's closed set, as record text. -/
def reasonTags : List (List Char) :=
  ["manual".data, "cleanup".data, "reset".data]

/-- The store tags of the spec's record shape, as record text. -/
def storeTags : List (List Char) :=
  ["vector".data, "cache".data]

/-- The record shape the spec asserts, read against the code's own field
convention (fields separated by `|`): four fields — `DocumentID`,
`deletedAt`, a store tag, and a reason from the closed set
{manual, cleanup, reset}. -/
def hasSpecAuditFields (entry : List Char) : Prop :=
  match jsSplit '|' entry with
  | [_, _, st, r] => st ∈ storeTags ∧ r ∈ reasonTags
  | _ => False

instance (entry : List Char) : Decidable (hasSpecAuditFields entry) := by
  unfold hasSpecAuditFields
  match jsSplit '|' entry with
  | [_, _, st, r] => exact inferInstanceAs (Decidable (_ ∧ _))
  | [] => exact inferInstanceAs (Decidable False)
  | [_] => exact inferInstanceAs (Decidable False)
  | [_, _] => exact inferInstanceAs (Decidable False)
  | [_, _, _] => exact inferInstanceAs (Decidable False)
  | _ :: _ :: _ :: _ :: _ :: _ => exact inferInstanceAs (Decidable False)

end DeletionLogFormat

namespace Demo

/-- The spec's test scenario: vector store holds `{A, B, C}`, all created
well before the grace window; the cache's only live key is `B`. -/
def demoState : AdminEngine.EngineState :=
  ⟨[⟨"A", 0⟩, ⟨"B", 0⟩, ⟨"C", 0⟩], [⟨"B", 2000⟩], [], false⟩

/-- A network that answers every facade request with an ok response. -/
def respondOk : AdminApi.Request → AdminApi.Response :=
  fun _ => ⟨true, "ok"⟩

/-- A network that fails every facade request. -/
def respondFail : AdminApi.Request → AdminApi.Response :=
  fun _ => ⟨false, "oops"⟩

/-- A demo bcrypt hash (abstracting the salted external function). -/
def demoHash : String → String :=
  fun p => "H(" ++ p ++ ")"

/-- A demo bcrypt comparison: accepts exactly the stored hash
`"H(correct)"` (salting abstracted away). -/
def demoCompare : String → String → Bool :=
  fun _ stored => stored == "H(correct)"

/-- One stored admin user for the auth scenarios. -/
def demoUsers : List AuthRoutes.StoredUser :=
  [⟨"admin@ucware.com", "H(secret)"⟩]

end Demo

section Claims

open AdminEngine

/-- C5: for every `DocumentID` absent from the vector store,
`DeleteOne(vector, X)` returns `existed = false`, writes no deletion-log
entry (the whole state, audit log included, is unchanged) and does not
error — absence is only the caller-visible `existed = false`, never a
failure of the call. -/
theorem deleteOne_absent_no_log_no_error (today : Nat) (id : String)
    (s : EngineState)
    (h : s.vectors.any (fun v => v.id == id) = false) :
    deleteOne StoreTag.vector today id s = (false, s) ∧
    (deleteOne StoreTag.vector today id s).2.audit = s.audit := by
  have h1 : deleteOne StoreTag.vector today id s = (false, s) := by
    simp [deleteOne, h]
  exact ⟨h1, by rw [h1]⟩

/-- C5 witness: deleting the absent key `X` from the scenario store. -/
theorem deleteOne_absent_no_log_witness :
    Demo.demoState.vectors.any (fun v => v.id == "X") = false ∧
    (deleteOne StoreTag.vector 7 "X" Demo.demoState = (false, Demo.demoState) ∧
     (deleteOne StoreTag.vector 7 "X" Demo.demoState).2.audit =
       Demo.demoState.audit) :=
  ⟨by decide, deleteOne_absent_no_log_no_error 7 "X" Demo.demoState (by decide)⟩

/-- C3: the three maintenance operations share the global lock — with the
lock free a `CleanupOrphanedVectors` call executes, while a second caller
arriving during the run (lock held) receives `Busy`, as does any
concurrent `CleanupExpiredCache` or `ResetAll`; nothing queues or runs a
second copy. -/
theorem maintenance_mutual_exclusion (grace now today : Nat)
    (vfail cfail : Option String) (s : EngineState)
    (h : s.lockHeld = false) :
    cleanupOrphanedVectors grace now today s =
      Except.ok (runCleanup grace now today s) ∧
    cleanupOrphanedVectors grace now today (midRun s) =
      Except.error EngineError.busy ∧
    cleanupExpiredCache now today (midRun s) =
      Except.error EngineError.busy ∧
    resetAll vfail cfail today (midRun s) =
      Except.error EngineError.busy := by
  refine ⟨?_, ?_, ?_, ?_⟩ <;>
    simp [cleanupOrphanedVectors, cleanupExpiredCache, resetAll, midRun, h]

/-- C3 witness: the scenario state with a cleanup mid-run. -/
theorem maintenance_mutual_exclusion_witness :
    Demo.demoState.lockHeld = false ∧
    cleanupOrphanedVectors 100 1000 7 Demo.demoState =
      Except.ok (runCleanup 100 1000 7 Demo.demoState) ∧
    cleanupOrphanedVectors 100 1000 7 (midRun Demo.demoState) =
      Except.error EngineError.busy :=
  ⟨rfl,
   (maintenance_mutual_exclusion 100 1000 7 none none Demo.demoState rfl).1,
   (maintenance_mutual_exclusion 100 1000 7 none none Demo.demoState rfl).2.1⟩

/-- C4: `ResetAll` attempts both clears and reports both: when the vector
clear fails with error `e` and the cache clear succeeds, the result is
`vectorsDeleted = 0`, `errors = [e]`, and `cacheDeleted` equal to the
actual number of cache records cleared — and for any outcome of the
vector clear, the cache clear is still performed and fully reported. -/
theorem resetAll_attempts_both_reports_both (today : Nat) (e : String)
    (vfail : Option String) (s : EngineState)
    (h : s.lockHeld = false) :
    resetAll (some e) none today s =
      Except.ok
        (⟨0, s.cache.length, [e]⟩,
         ⟨s.vectors, [], s.audit ++ [resetSummaryEntry today], false⟩) ∧
    (resetAll vfail none today s).map
        (fun p => (p.1.cacheDeleted, p.2.cache)) =
      Except.ok (s.cache.length, ([] : List CacheRec)) := by
  constructor
  · simp [resetAll, h]
  · cases vfail <;> simp [resetAll, h, Except.map]

/-- C4 witness: the scenario state when the vector clear fails. -/
theorem resetAll_attempts_both_witness :
    Demo.demoState.lockHeld = false ∧
    resetAll (some "chroma down") none 7 Demo.demoState =
      Except.ok
        (⟨0, Demo.demoState.cache.length, ["chroma down"]⟩,
         ⟨Demo.demoState.vectors, [],
          Demo.demoState.audit ++ [resetSummaryEntry 7], false⟩) :=
  ⟨rfl,
   (resetAll_attempts_both_reports_both 7 "chroma down" none
      Demo.demoState rfl).1⟩

/-- Characterization of the orphan test as a proposition. -/
theorem isOrphan_eq_true_iff (live : List String) (grace now : Nat)
    (v : VectorRec) :
    isOrphan live grace now v = true ↔
      (v.id ∉ live ∧ v.createdAt + grace < now) := by
  simp [isOrphan, List.contains]

/-- C1: with the maintenance lock free, `CleanupOrphanedVectors` deletes
exactly the orphan set — a key is among `deletedIDs` precisely when it is
in `ListAllKeys() − ListLiveKeys()` and older than the grace window; a
record survives precisely when it is not such an orphan; `deletedCount`
counts `deletedIDs`, no errors are reported, and the day's audit query
gains exactly one cleanup entry per deleted key.  In the spec scenario
(vectors `{A, B, C}` old, live key `{B}`) the run deletes `{A, C}` with
`deletedCount = 2` and the audit log for the day holds exactly the two
cleanup entries for `A` and `C`. -/
theorem cleanup_deletes_exactly_orphans (grace now today : Nat)
    (s : EngineState) (v : VectorRec)
    (hlock : s.lockHeld = false)
    (hnd : (s.vectors.map VectorRec.id).Nodup)
    (hv : v ∈ s.vectors) :
    cleanupOrphanedVectors grace now today s =
      Except.ok (runCleanup grace now today s) ∧
    (v.id ∈ (runCleanup grace now today s).1.deletedIDs ↔
      (v.id ∉ listLiveKeys now s ∧ v.createdAt + grace < now)) ∧
    (v ∈ (runCleanup grace now today s).2.vectors ↔
      ¬(v.id ∉ listLiveKeys now s ∧ v.createdAt + grace < now)) ∧
    (runCleanup grace now today s).1.deletedCount =
      (runCleanup grace now today s).1.deletedIDs.length ∧
    (runCleanup grace now today s).1.errorCount = 0 ∧
    queryByDate today (runCleanup grace now today s).2.audit =
      queryByDate today s.audit ++
        (runCleanup grace now today s).1.deletedIDs.map (cleanupEntry today) ∧
    (runCleanup 100 1000 7 Demo.demoState).1.deletedIDs = ["A", "C"] ∧
    (runCleanup 100 1000 7 Demo.demoState).1.deletedCount = 2 ∧
    queryByDate 7 (runCleanup 100 1000 7 Demo.demoState).2.audit =
      [cleanupEntry 7 "A", cleanupEntry 7 "C"] := by
  refine ⟨?_, ?_, ?_, ?_, ?_, ?_, by decide, by decide, by decide⟩
  · simp [cleanupOrphanedVectors, hlock]
  · constructor
    · intro hmem
      simp only [runCleanup, List.mem_map, List.mem_filter] at hmem
      obtain ⟨w, ⟨hw, hpw⟩, hid⟩ := hmem
      have hwv : w = v := List.inj_on_of_nodup_map hnd hw hv hid
      subst hwv
      exact (isOrphan_eq_true_iff _ grace now w).mp hpw
    · intro hcond
      simp only [runCleanup, List.mem_map, List.mem_filter]
      exact ⟨v, ⟨hv, (isOrphan_eq_true_iff _ grace now v).mpr hcond⟩, rfl⟩
  · constructor
    · intro hmem
      simp only [runCleanup, List.mem_filter, Bool.not_eq_true'] at hmem
      intro hcond
      have := (isOrphan_eq_true_iff (listLiveKeys now s) grace now v).mpr hcond
      rw [this] at hmem
      exact absurd hmem.2 (by simp)
    · intro hcond
      simp only [runCleanup, List.mem_filter, Bool.not_eq_true']
      refine ⟨hv, ?_⟩
      cases horb : isOrphan (listLiveKeys now s) grace now v with
      | false => rfl
      | true =>
        exact absurd ((isOrphan_eq_true_iff _ grace now v).mp horb) hcond
  · rfl
  · rfl
  · simp only [runCleanup, queryByDate, List.filter_append]
    congr 1
    rw [List.filter_eq_self]
    intro a ha
    simp only [List.mem_map] at ha
    obtain ⟨i, _, hi⟩ := ha
    subst hi
    simp [cleanupEntry]

/-- C1 witness: the orphan characterization at key `A` of the scenario. -/
theorem cleanup_deletes_exactly_orphans_witness :
    Demo.demoState.lockHeld = false ∧
    ("A" ∈ (runCleanup 100 1000 7 Demo.demoState).1.deletedIDs ↔
      ("A" ∉ listLiveKeys 1000 Demo.demoState ∧ 0 + 100 < 1000)) :=
  ⟨rfl,
   (cleanup_deletes_exactly_orphans 100 1000 7 Demo.demoState ⟨"A", 0⟩ rfl
      (by decide) (by decide)).2.1⟩

/-- C2: running `CleanupOrphanedVectors` twice in succession with no
intervening writes deletes `N` orphans on the first run and `0` on the
second, and the second run is still a success (`Except.ok`), not an
error. -/
theorem cleanup_idempotent (grace now today : Nat) (s : EngineState)
    (hlock : s.lockHeld = false) :
    cleanupOrphanedVectors grace now today s =
      Except.ok (runCleanup grace now today s) ∧
    (runCleanup grace now today s).1.deletedCount =
      (s.vectors.filter (isOrphan (listLiveKeys now s) grace now)).length ∧
    cleanupOrphanedVectors grace now today (runCleanup grace now today s).2 =
      Except.ok (runCleanup grace now today (runCleanup grace now today s).2) ∧
    (runCleanup grace now today
        (runCleanup grace now today s).2).1.deletedCount = 0 ∧
    (runCleanup grace now today
        (runCleanup grace now today s).2).1.deletedIDs = [] := by
  have hlive : listLiveKeys now (runCleanup grace now today s).2 =
      listLiveKeys now s := rfl
  have hnil : (runCleanup grace now today s).2.vectors.filter
      (isOrphan (listLiveKeys now (runCleanup grace now today s).2) grace now)
        = [] := by
    rw [hlive]
    show ((s.vectors.filter _).filter _) = []
    rw [List.filter_filter]
    apply List.filter_eq_nil_iff.mpr
    intro a _
    cases h : isOrphan (listLiveKeys now s) grace now a <;> simp [h]
  have hlock1 : (runCleanup grace now today s).2.lockHeld = false := hlock
  refine ⟨by simp [cleanupOrphanedVectors, hlock], ?_, ?_, ?_, ?_⟩
  · simp [runCleanup]
  · simp [cleanupOrphanedVectors, hlock1]
  · show (((runCleanup grace now today s).2.vectors.filter
        (isOrphan (listLiveKeys now (runCleanup grace now today s).2)
          grace now)).map VectorRec.id).length = 0
    rw [hnil]
    rfl
  · show ((runCleanup grace now today s).2.vectors.filter
        (isOrphan (listLiveKeys now (runCleanup grace now today s).2)
          grace now)).map VectorRec.id = []
    rw [hnil]
    rfl

/-- C2 witness: the scenario state run twice. -/
theorem cleanup_idempotent_witness :
    Demo.demoState.lockHeld = false ∧
    (runCleanup 100 1000 7
        (runCleanup 100 1000 7 Demo.demoState).2).1.deletedCount = 0 :=
  ⟨rfl, (cleanup_idempotent 100 1000 7 Demo.demoState rfl).2.2.2.1⟩

/-- A scheduler tick always records exactly one attempt, at the day's
fixed fire instant, and never touches the deferred-run queue. -/
theorem schedulerTick_attempts_pending (grace hour day : Nat)
    (es : EngineState) (ss : SchedState) :
    (schedulerTick grace hour day es ss).2.attempts =
      ss.attempts ++ [fireTime hour day] ∧
    (schedulerTick grace hour day es ss).2.pending = ss.pending := by
  unfold schedulerTick
  cases h : cleanupOrphanedVectors grace (fireTime hour day) day es with
  | error e => cases e; simp [h]
  | ok p => simp [h]

/-- Over any run of daily ticks the attempts are exactly one per day at
the fixed fire instants, and the queue never grows. -/
theorem runSchedule_attempts_pending (grace hour : Nat) (days : List Nat) :
    ∀ (es : EngineState) (ss : SchedState),
      (runSchedule grace hour days es ss).2.attempts =
        ss.attempts ++ days.map (fireTime hour) ∧
      (runSchedule grace hour days es ss).2.pending = ss.pending := by
  induction days with
  | nil => intro es ss; simp [runSchedule]
  | cons d rest ih =>
    intro es ss
    have htick := schedulerTick_attempts_pending grace hour d es ss
    have hrest := ih (schedulerTick grace hour d es ss).1
      (schedulerTick grace hour d es ss).2
    constructor
    · rw [show runSchedule grace hour (d :: rest) es ss =
          runSchedule grace hour rest (schedulerTick grace hour d es ss).1
            (schedulerTick grace hour d es ss).2 from rfl,
        hrest.1, htick.1, List.map_cons, List.append_assoc]
      rfl
    · rw [show runSchedule grace hour (d :: rest) es ss =
          runSchedule grace hour rest (schedulerTick grace hour d es ss).1
            (schedulerTick grace hour d es ss).2 from rfl,
        hrest.2, htick.2]

/-- C7: each scheduler tick fires at the day's fixed wall-clock instant
(`fireTime hour day`, default hour 3) and records exactly one cleanup
attempt; a tick that finds the engine busy is skipped and logged — the
engine state is untouched, the skip is appended to the skip log, nothing
enters the deferred-run queue — and over any sequence of days the
attempts are exactly one per day with the queue staying empty, so no
backlog accumulates. -/
theorem scheduler_skips_busy_tick_no_backlog (grace hour day : Nat)
    (days : List Nat) (es : EngineState) (ss : SchedState)
    (hbusy : es.lockHeld = true) (hq : ss.pending = []) :
    (schedulerTick grace hour day es ss).2.attempts =
      ss.attempts ++ [fireTime hour day] ∧
    (schedulerTick grace hour day es ss).2.skippedDays =
      ss.skippedDays ++ [day] ∧
    (schedulerTick grace hour day es ss).2.pending = [] ∧
    (schedulerTick grace hour day es ss).1 = es ∧
    (runSchedule grace hour days es ss).2.attempts =
      ss.attempts ++ days.map (fireTime hour) ∧
    (runSchedule grace hour days es ss).2.pending = [] := by
  have hcall : cleanupOrphanedVectors grace (fireTime hour day) day es =
      Except.error EngineError.busy := by
    simp [cleanupOrphanedVectors, hbusy]
  have hsched := runSchedule_attempts_pending grace hour days es ss
  refine ⟨(schedulerTick_attempts_pending grace hour day es ss).1, ?_, ?_,
    ?_, hsched.1, by rw [hsched.2, hq]⟩
  · simp [schedulerTick, hcall]
  · rw [(schedulerTick_attempts_pending grace hour day es ss).2, hq]
  · simp [schedulerTick, hcall]

/-- C7 witness: a busy engine on day 5 with a three-day schedule. -/
theorem scheduler_skips_busy_tick_witness :
    (midRun Demo.demoState).lockHeld = true ∧
    (⟨[], [], []⟩ : SchedState).pending = [] ∧
    (schedulerTick 100 3 5 (midRun Demo.demoState) ⟨[], [], []⟩).2.skippedDays
      = ([] : List Nat) ++ [5] ∧
    (runSchedule 100 3 [5, 6, 7] (midRun Demo.demoState) ⟨[], [], []⟩).2.pending
      = [] :=
  ⟨rfl, rfl,
   (scheduler_skips_busy_tick_no_backlog 100 3 5 [5, 6, 7]
      (midRun Demo.demoState) ⟨[], [], []⟩ rfl rfl).2.1,
   (scheduler_skips_busy_tick_no_backlog 100 3 5 [5, 6, 7]
      (midRun Demo.demoState) ⟨[], [], []⟩ rfl rfl).2.2.2.2.2⟩

end Claims

section FacadeClaims

open AdminApi

/-- C8: every engine operation exposed through the facade — orphan-vector
cleanup, expired-cache cleanup, single delete on either store, vector
delete-all, and the full system reset — issues exactly one request,
returns the engine's response body unchanged when the response is ok, and
throws its fixed error exactly when the response is not ok — no business
logic, no partial results. -/
theorem facade_single_request_passthrough
    (respond : Request → Response) (file_id : String) :
    ((cleanupUnusedVectors respond).1 = [cleanupUnusedVectorsReq] ∧
     ((respond cleanupUnusedVectorsReq).ok = true →
       (cleanupUnusedVectors respond).2 =
         Except.ok (respond cleanupUnusedVectorsReq).body) ∧
     ((respond cleanupUnusedVectorsReq).ok = false →
       (cleanupUnusedVectors respond).2 =
         Except.error "미사용 벡터 정리 실패")) ∧
    ((deleteVectorById file_id respond).1 = [deleteVectorByIdReq file_id] ∧
     ((respond (deleteVectorByIdReq file_id)).ok = true →
       (deleteVectorById file_id respond).2 =
         Except.ok (respond (deleteVectorByIdReq file_id)).body) ∧
     ((respond (deleteVectorByIdReq file_id)).ok = false →
       (deleteVectorById file_id respond).2 =
         Except.error "벡터 삭제 실패")) ∧
    ((deleteAllVectors respond).1 = [deleteAllVectorsReq] ∧
     ((respond deleteAllVectorsReq).ok = true →
       (deleteAllVectors respond).2 =
         Except.ok (respond deleteAllVectorsReq).body) ∧
     ((respond deleteAllVectorsReq).ok = false →
       (deleteAllVectors respond).2 =
         Except.error "벡터 전체 삭제 실패")) ∧
    ((deleteCacheById file_id respond).1 = [deleteCacheByIdReq file_id] ∧
     ((respond (deleteCacheByIdReq file_id)).ok = true →
       (deleteCacheById file_id respond).2 =
         Except.ok (respond (deleteCacheByIdReq file_id)).body) ∧
     ((respond (deleteCacheByIdReq file_id)).ok = false →
       (deleteCacheById file_id respond).2 =
         Except.error "캐시 삭제 실패")) ∧
    ((cleanupUnusedCache respond).1 = [cleanupUnusedCacheReq] ∧
     ((respond cleanupUnusedCacheReq).ok = true →
       (cleanupUnusedCache respond).2 =
         Except.ok (respond cleanupUnusedCacheReq).body) ∧
     ((respond cleanupUnusedCacheReq).ok = false →
       (cleanupUnusedCache respond).2 =
         Except.error "미사용 캐시 정리 실패")) ∧
    ((deleteSystemAll respond).1 = [deleteSystemAllReq] ∧
     ((respond deleteSystemAllReq).ok = true →
       (deleteSystemAll respond).2 =
         Except.ok (respond deleteSystemAllReq).body) ∧
     ((respond deleteSystemAllReq).ok = false →
       (deleteSystemAll respond).2 =
         Except.error "시스템 전체 삭제 실패")) := by
  refine ⟨⟨rfl, ?_, ?_⟩, ⟨rfl, ?_, ?_⟩, ⟨rfl, ?_, ?_⟩, ⟨rfl, ?_, ?_⟩,
    ⟨rfl, ?_, ?_⟩, ⟨rfl, ?_, ?_⟩⟩ <;>
    intro h <;>
    simp [cleanupUnusedVectors, deleteVectorById, deleteAllVectors,
      deleteCacheById, cleanupUnusedCache, deleteSystemAll, h]

/-- C8 witness: an ok network, exercised at the vector- and cache-cleanup
endpoints. -/
theorem facade_single_request_witness :
    (Demo.respondOk cleanupUnusedVectorsReq).ok = true ∧
    (Demo.respondOk cleanupUnusedCacheReq).ok = true ∧
    (cleanupUnusedVectors Demo.respondOk).1 = [cleanupUnusedVectorsReq] ∧
    (cleanupUnusedVectors Demo.respondOk).2 =
      Except.ok (Demo.respondOk cleanupUnusedVectorsReq).body ∧
    (cleanupUnusedCache Demo.respondOk).1 = [cleanupUnusedCacheReq] ∧
    (cleanupUnusedCache Demo.respondOk).2 =
      Except.ok (Demo.respondOk cleanupUnusedCacheReq).body :=
  ⟨rfl, rfl,
   (facade_single_request_passthrough Demo.respondOk "doc1").1.1,
   (facade_single_request_passthrough Demo.respondOk "doc1").1.2.1 rfl,
   (facade_single_request_passthrough Demo.respondOk "doc1").2.2.2.2.1.1,
   (facade_single_request_passthrough Demo.respondOk "doc1").2.2.2.2.1.2.1 rfl⟩

end FacadeClaims

section AuthClaims

open AuthRoutes

/-- C9: the login route answers `200 {success: true}` exactly when a
stored user matches the email and the bcrypt comparison of the trimmed
password against that user's stored hash succeeds; both failure cases —
unknown email and wrong password — answer 401 with the identical error
body, so the response does not reveal whether the email is registered. -/
theorem login_success_iff_match_and_uniform_failure
    (compare : String → String → Bool) (users : List StoredUser)
    (email password : String) :
    (loginPOST compare users email password = (200, ApiBody.success) ↔
      ∃ u, users.find? (fun w => w.email == email) = some u ∧
        compare password.trim u.password = true) ∧
    (users.find? (fun w => w.email == email) = none →
      loginPOST compare users email password = (401, loginFailBody)) ∧
    (∀ u, users.find? (fun w => w.email == email) = some u →
      compare password.trim u.password = false →
      loginPOST compare users email password = (401, loginFailBody)) := by
  refine ⟨?_, ?_, ?_⟩
  · cases hfind : users.find? (fun w => w.email == email) with
    | none => simp [loginPOST, hfind]
    | some u =>
      cases hcmp : compare password.trim u.password with
      | true => simp [loginPOST, hfind, hcmp]
      | false => simp [loginPOST, hfind, hcmp]
  · intro hnone
    simp [loginPOST, hnone, loginFailBody]
  · intro u hu hcmp
    simp [loginPOST, hu, hcmp, loginFailBody]

/-- C9 witness: the demo user logging in with the wrong password gets the
same 401 body an unknown email would get. -/
theorem login_uniform_failure_witness :
    Demo.demoUsers.find? (fun w => w.email == "admin@ucware.com") =
      some ⟨"admin@ucware.com", "H(secret)"⟩ ∧
    Demo.demoCompare "wrong".trim
      (⟨"admin@ucware.com", "H(secret)"⟩ : StoredUser).password = false ∧
    loginPOST Demo.demoCompare Demo.demoUsers "admin@ucware.com" "wrong" =
      (401, loginFailBody) :=
  ⟨by decide, rfl,
   (login_success_iff_match_and_uniform_failure Demo.demoCompare
      Demo.demoUsers "admin@ucware.com" "wrong").2.2
     ⟨"admin@ucware.com", "H(secret)"⟩ (by decide) rfl⟩

/-- C10: the signup route leaves the stored user list unchanged on every
error response (400 for missing email/password, 409 for a duplicate
email) and on success writes back exactly the old list with one entry
appended whose password field is the bcrypt hash of the trimmed input
password. -/
theorem signup_store_mutation (hash : String → String)
    (users : List StoredUser) (email password : String) :
    ((email == "" || password == "") = true →
      signupPOST hash users email password =
        (400, ApiBody.errorMsg "필수 정보가 없습니다.", users)) ∧
    ((email == "" || password == "") = false →
      (users.find? (fun u => u.email == email)).isSome = true →
      signupPOST hash users email password =
        (409, ApiBody.errorMsg "이미 존재하는 이메일입니다.", users)) ∧
    ((email == "" || password == "") = false →
      (users.find? (fun u => u.email == email)).isSome = false →
      signupPOST hash users email password =
        (200, ApiBody.success, users ++ [⟨email, hash password.trim⟩])) ∧
    ((signupPOST hash users email password).1 ≠ 200 →
      (signupPOST hash users email password).2.2 = users) ∧
    ((signupPOST hash users email password).1 = 200 →
      (signupPOST hash users email password).2.2 =
        users ++ [⟨email, hash password.trim⟩]) := by
  by_cases hmiss : (email == "" || password == "") = true
  · refine ⟨fun _ => ?_, ?_, ?_, ?_, ?_⟩
    · simp [signupPOST, hmiss]
    · intro hc
      exact absurd hmiss (by simp [hc])
    · intro hc
      exact absurd hmiss (by simp [hc])
    · intro _
      simp [signupPOST, hmiss]
    · intro h200
      rw [show (signupPOST hash users email password).1 = 400 by
        simp [signupPOST, hmiss]] at h200
      exact absurd h200 (by simp)
  · rw [Bool.not_eq_true] at hmiss
    by_cases hdup : (users.find? (fun u => u.email == email)).isSome = true
    · refine ⟨?_, fun _ _ => ?_, ?_, ?_, ?_⟩
      · intro hc
        rw [hmiss] at hc
        exact absurd hc (by simp)
      · simp [signupPOST, hmiss, hdup]
      · intro _ hc
        rw [hdup] at hc
        exact absurd hc (by simp)
      · intro _
        simp [signupPOST, hmiss, hdup]
      · intro h200
        rw [show (signupPOST hash users email password).1 = 409 by
          simp [signupPOST, hmiss, hdup]] at h200
        exact absurd h200 (by simp)
    · rw [Bool.not_eq_true] at hdup
      refine ⟨?_, ?_, fun _ _ => ?_, ?_, fun _ => ?_⟩
      · intro hc
        rw [hmiss] at hc
        exact absurd hc (by simp)
      · intro _ hc
        rw [hdup] at hc
        exact absurd hc (by simp)
      · simp [signupPOST, hmiss, hdup]
      · intro hne
        exact absurd (by simp [signupPOST, hmiss, hdup]) hne
      · simp [signupPOST, hmiss, hdup]

/-- C10 witness: a successful signup appends exactly the hashed entry. -/
theorem signup_store_mutation_witness :
    (("new@ucware.com" == "" || "pw123 " == "") = false) ∧
    ((Demo.demoUsers.find? (fun u => u.email == "new@ucware.com")).isSome
      = false) ∧
    signupPOST Demo.demoHash Demo.demoUsers "new@ucware.com" "pw123 " =
      (200, ApiBody.success,
       Demo.demoUsers ++ [⟨"new@ucware.com", Demo.demoHash "pw123 ".trim⟩]) :=
  ⟨by decide, by decide,
   (signup_store_mutation Demo.demoHash Demo.demoUsers "new@ucware.com"
      "pw123 ").2.2.1 (by decide) (by decide)⟩

end AuthClaims

section LogFormatClaims

open DeletionLogFormat

/-- Splitting a separator-free field yields just that field. -/
theorem jsSplit_of_not_mem (sep : Char) (xs : List Char) (h : sep ∉ xs) :
    jsSplit sep xs = [xs] := by
  induction xs with
  | nil => rfl
  | cons c rest ih =>
    have hc : ¬c = sep := fun hcs => h (hcs ▸ List.mem_cons_self c rest)
    have hr : sep ∉ rest := fun hm => h (List.mem_cons_of_mem c hm)
    unfold jsSplit
    rw [if_neg hc, ih hr]

/-- Splitting past a separator-free prefix peels off that field. -/
theorem jsSplit_append (sep : Char) (xs ys : List Char) (h : sep ∉ xs) :
    jsSplit sep (xs ++ sep :: ys) = xs :: jsSplit sep ys := by
  induction xs with
  | nil =>
    show jsSplit sep (sep :: ys) = [] :: jsSplit sep ys
    simp [jsSplit]
  | cons c rest ih =>
    have hc : ¬c = sep := fun hcs => h (hcs ▸ List.mem_cons_self c rest)
    have hr : sep ∉ rest := fun hm => h (List.mem_cons_of_mem c hm)
    show jsSplit sep (c :: (rest ++ sep :: ys)) = (c :: rest) :: jsSplit sep ys
    simp only [jsSplit, if_neg hc, ih hr]

/-- C6 counterexample: the deletion-log record the code reads and writes
for a cleanup of document `A` is the raw string `A|2025-08-26T03:00:00`;
under the code's own field convention (`split('|')`) it has two
components, not the four fields — `DocumentID`, `deletedAt`, store,
reason — the claim asserts, so no store tag or closed-set reason is
carried in the record. -/
theorem deletion_log_not_four_fields :
    (jsSplit '|'
      (mkDeletionLog "A".data "2025-08-26T03:00:00".data)).length = 2 ∧
    ¬ hasSpecAuditFields (mkDeletionLog "A".data "2025-08-26T03:00:00".data)
    := by
  constructor
  · decide
  · decide

/-- C6 (amended): every deletion-log record is a raw string
`{DocumentID}|{deletedAt}` — the logs page parses exactly a `DocumentID`
and a timestamp out of it; the store is encoded in the date-partitioned
log key the record lives under (`vector_deletion_log:{date}` vs
`cache_deletion_log:{date}`), and no `reason` field from
{manual, cleanup, reset} is stored in the record. -/
theorem deletion_log_record_two_fields (fid ts : List Char)
    (hf : '|' ∉ fid) (ht : '|' ∉ ts) :
    jsSplit '|' (mkDeletionLog fid ts) = [fid, ts] ∧
    parseDeletionLog (mkDeletionLog fid ts) = (fid, some ts) ∧
    ¬ hasSpecAuditFields (mkDeletionLog fid ts) := by
  have hsplit : jsSplit '|' (mkDeletionLog fid ts) = [fid, ts] := by
    unfold mkDeletionLog
    rw [jsSplit_append '|' fid ts hf, jsSplit_of_not_mem '|' ts ht]
  refine ⟨hsplit, ?_, ?_⟩
  · unfold parseDeletionLog
    rw [hsplit]
  · unfold hasSpecAuditFields
    rw [hsplit]
    simp

/-- C6 witness: the concrete cleanup record for document `A`. -/
theorem deletion_log_record_two_fields_witness :
    ('|' ∉ "A".data) ∧ ('|' ∉ "2025-08-26".data) ∧
    (jsSplit '|' (mkDeletionLog "A".data "2025-08-26".data) =
        ["A".data, "2025-08-26".data] ∧
     parseDeletionLog (mkDeletionLog "A".data "2025-08-26".data) =
        ("A".data, some "2025-08-26".data) ∧
     ¬ hasSpecAuditFields (mkDeletionLog "A".data "2025-08-26".data)) :=
  ⟨by decide, by decide,
   deletion_log_record_two_fields "A".data "2025-08-26".data
     (by decide) (by decide)⟩

end LogFormatClaims
